import Mathlib

/-!
Verification of the storefront custom elements in this repository against
their natural-language specification.  Each JavaScript class is shallowly
embedded as a Lean state record together with pure step functions that
mirror the handlers of the source file; DOM reads that depend on the
browser environment (query results, bounding rectangles, media queries,
promise outcomes) are passed as explicit parameters.
-/

namespace Spec2Proof

/-! ## StickyATC (src/unnamed/part_000, first class)

State of the `sticky-atc` custom element of the first class of
part_000.  `visible` models membership of the class list entry
`is-visible`; `warned` records that the console warning was emitted;
`scheduled` records whether the most recent `_attachObserver` call
requested a new animation frame retry; `observed` records that an
`IntersectionObserver` was attached to the target node. -/

structure ATCState where
  retryCount : Nat
  visible : Bool
  warned : Bool
  scheduled : Bool
  observed : Bool
deriving DecidableEq, Repr

/-- Initial state produced by the `StickyATC` constructor:
`_retryCount = 0`, no observer, no pending retry frame. -/
def ATCState.init : ATCState :=
  { retryCount := 0, visible := false, warned := false, scheduled := false, observed := false }

/-- Embedding of `StickyATC._attachObserver` (part_000 lines 37-59).
`targetFound` is the result of `document.querySelector(this._targetSelector)`
being non-null.  When the target is absent and fewer than 10 retries have
happened, the retry counter is bumped and a new animation frame is
requested; at 10 the element warns, becomes permanently visible and
requests no further frame.  When the target is found the counter resets
and an `IntersectionObserver` is attached. -/
def attachObserver (targetFound : Bool) (s : ATCState) : ATCState :=
  if !targetFound then
    if s.retryCount < 10 then
      { s with retryCount := s.retryCount + 1, scheduled := true }
    else
      { s with warned := true, visible := true, scheduled := false }
  else
    { s with retryCount := 0, observed := true, scheduled := false }

/-- The run in which the target selector never matches: `attachRun n` is the
state after `n` consecutive `_attachObserver` calls (the first from
`connectedCallback`, the rest from the scheduled animation frames) that all
fail to find the target. -/
def attachRun : Nat → ATCState
  | 0 => ATCState.init
  | n + 1 => attachObserver false (attachRun n)

/-- Embedding of `StickyATC._handleIntersection` (part_000 lines 64-76) acting
on the `is-visible` class bit.  The handler walks the delivered entries in
order and stops at the first decisive one: ratio exactly 0 adds the class,
ratio at least 0.75 removes it. -/
def handleIntersection : List ℚ → Bool → Bool
  | [], v => v
  | r :: rs, v =>
    if r = 0 then true
    else if (3 : ℚ) / 4 ≤ r then false
    else handleIntersection rs v

/-! ## StickyAtcElement (src/unnamed/part_000, second class)

The anchor-tracking variant of the sticky add-to-cart bar.  DOM child
elements that may be absent are modelled as `Option`; anchor nodes are
identified by natural numbers so that the reference comparison
`currentAnchor !== this.anchorElement` is identity comparison. -/

structure ImgState where
  src : String
  srcset : String
  sizes : String
  alt : String
deriving DecidableEq, Repr

structure MediaLinkState where
  href : String
  hidden : Bool
  img : Option ImgState
deriving DecidableEq, Repr

structure VariantTargetState where
  text : String
  hidden : Bool
deriving DecidableEq, Repr

/-- State of a `StickyAtcElement` instance together with the DOM facts it
reads: `sectionAnchor` is the current result of `getAnchor()`,
`observerActive` models `intersectionObserver !== null`, and `observerGen`
counts how many `IntersectionObserver` instances have been created (so a
fresh observer is visible as a counter bump). -/
structure AtcElemState where
  productId : String
  dsProductId : Option String
  dsProductUrl : Option String
  dsProductTitle : Option String
  titleHref : Option String
  mediaLink : Option MediaLinkState
  variantTarget : Option VariantTargetState
  sectionAnchor : Option Nat
  anchorElement : Option Nat
  observerActive : Bool
  observerGen : Nat
  ariaHidden : Option String
  dsVisible : Option String
deriving DecidableEq, Repr

/-- JavaScript `a || b` on optional strings: the empty string is falsy. -/
def jsOr (a b : Option String) : Option String :=
  match a with
  | some x => if x = "" then b else some x
  | none => b

/-- Payload shapes of the `variant:update` custom event (part_000 lines
83-88 and the fields read by `handleVariantUpdate`).  Product ids arrive
already converted by `.toString()`. -/
structure NewProduct where
  id : Option String
  url : Option String
deriving DecidableEq, Repr

structure EventData where
  newProduct : Option NewProduct
  productId : Option String
deriving DecidableEq, Repr

structure VariantResource where
  url : Option String
  title : Option String
  previewImageSrc : Option String
  previewImageAlt : Option String
deriving DecidableEq, Repr

structure VariantDetail where
  resource : Option VariantResource
  data : Option EventData
deriving DecidableEq, Repr

/-- Embedding of `StickyAtcElement.setVisibility` (part_000 lines 185-191).
`currentState` is true when the element currently counts as hidden
(`aria-hidden` attribute is not the string "false"); when the desired
shown state already matches, nothing is written. -/
def setVisibility (shouldShow : Bool) (s : AtcElemState) : AtcElemState :=
  let currentState : Bool := !(decide (s.ariaHidden = some "false"))
  if shouldShow = !currentState then s
  else
    { s with
      ariaHidden := some (if shouldShow then "false" else "true"),
      dsVisible := some (if shouldShow then "true" else "false") }

/-- One `IntersectionObserverEntry` as read by the handlers: the
`isIntersecting` flag and the `boundingClientRect.bottom` coordinate. -/
structure IOEntry where
  isIntersecting : Bool
  bottom : ℚ
deriving DecidableEq, Repr

/-- Embedding of `StickyAtcElement.handleAnchorIntersect` (part_000 lines
175-180): reads the first delivered entry and shows the bar exactly when
the anchor no longer intersects and its bottom edge is at or above the
viewport top. -/
def handleAnchorIntersect (entries : List IOEntry) (s : AtcElemState) : AtcElemState :=
  match entries with
  | [] => s
  | e :: _ => setVisibility (!e.isIntersecting && decide (e.bottom ≤ 0)) s

/-- Embedding of `StickyAtcElement.createIntersectionObserver` (part_000
lines 157-170).  `anchorBottom` is the bounding rectangle bottom of the
anchor at call time. -/
def createIntersectionObserver (anchor : Nat) (anchorBottom : ℚ) (s : AtcElemState) :
    AtcElemState :=
  if s.observerActive then s
  else
    let s := { s with
      observerActive := true, observerGen := s.observerGen + 1,
      anchorElement := some anchor }
    setVisibility (decide (anchorBottom ≤ 0)) s

/-- Embedding of `StickyAtcElement.resetIntersectionObserver` (part_000
lines 315-319): disconnect the old observer and create a fresh one. -/
def resetIntersectionObserver (anchor : Nat) (anchorBottom : ℚ) (s : AtcElemState) :
    AtcElemState :=
  createIntersectionObserver anchor anchorBottom { s with observerActive := false }

/-- Embedding of `StickyAtcElement.toggleVariantVisibility` (part_000 lines
252-259). -/
def toggleVariantVisibility (visible : Bool) (s : AtcElemState) : AtcElemState :=
  match s.variantTarget with
  | none => s
  | some vt =>
    if visible then { s with variantTarget := some { vt with hidden := false } }
    else if !vt.hidden then { s with variantTarget := some { vt with hidden := true } }
    else s

/-- Embedding of `StickyAtcElement.updateVariantTitle` (part_000 lines
235-247). -/
def updateVariantTitle (title : String) (s : AtcElemState) : AtcElemState :=
  match s.variantTarget with
  | none => s
  | some _ =>
    let hasTitle : Bool := !(title = "") && !(title = "Default Title")
    let s := toggleVariantVisibility hasTitle s
    match s.variantTarget with
    | none => s
    | some vt =>
      if !hasTitle then { s with variantTarget := some { vt with text := "" } }
      else { s with variantTarget := some { vt with text := title } }

/-- The width-parameter builder of `updateMedia` (part_000 lines 287-296).
The `URL` branch of the source sets the `width` search parameter of an
absolute URL; its `catch` branch, embedded here, appends the same
parameter with `?` or `&` depending on whether a query already exists.
No claim depends on the exact resulting string. -/
def buildSrc (previewSrc : String) (width : Nat) : String :=
  if previewSrc.contains '?' then previewSrc ++ "&width=" ++ toString width
  else previewSrc ++ "?width=" ++ toString width

/-- Embedding of `StickyAtcElement.updateMedia` (part_000 lines 264-302).
A missing `img` child is created before being filled in. -/
def updateMedia (variant : VariantResource) (s : AtcElemState) : AtcElemState :=
  match s.mediaLink with
  | none => s
  | some ml =>
    match variant.previewImageSrc with
    | none => { s with mediaLink := some { ml with hidden := true } }
    | some psrc =>
      if psrc = "" then { s with mediaLink := some { ml with hidden := true } }
      else
        let img := ml.img.getD { src := "", srcset := "", sizes := "", alt := "" }
        let widths : List Nat := [80, 120, 160]
        let img := { img with
          src := buildSrc psrc 120,
          srcset := String.intercalate ", "
            (widths.map (fun w => buildSrc psrc w ++ " " ++ toString w ++ "w")),
          sizes := "(max-width: 480px) 80px, 120px",
          alt := (jsOr variant.previewImageAlt (jsOr s.dsProductTitle (some ""))).getD "" }
        { s with mediaLink := some { ml with hidden := false, img := some img } }

/-- The product id the `variant:update` handler extracts from an event:
`(data.newProduct?.id ?? data.productId)?.toString()` after the
`!detail || !detail.data` guard. -/
def extractPid (ev : Option VariantDetail) : Option String :=
  match ev with
  | none => none
  | some detail =>
    match detail.data with
    | none => none
    | some data => (data.newProduct.bind NewProduct.id).orElse (fun _ => data.productId)

/-- Embedding of `StickyAtcElement.handleVariantUpdate` (part_000 lines
196-230).  `anchorBottom` is the bounding rectangle bottom of the current
anchor, consumed only when the observer is re-created for a new anchor. -/
def handleVariantUpdate (ev : Option VariantDetail) (anchorBottom : ℚ)
    (s : AtcElemState) : AtcElemState :=
  match ev with
  | none => s
  | some detail =>
    match detail.data with
    | none => s
    | some data =>
      match (data.newProduct.bind NewProduct.id).orElse (fun _ => data.productId) with
      | none => s
      | some p =>
        if p = "" ∨ p ≠ s.productId then s
        else
          let s := { s with productId := p, dsProductId := some p }
          let vr := detail.resource.getD
            { url := none, title := none, previewImageSrc := none, previewImageAlt := none }
          let targetUrl := jsOr vr.url (jsOr (data.newProduct.bind NewProduct.url) s.dsProductUrl)
          let s :=
            match targetUrl with
            | some u =>
              if u = "" then s
              else
                let s :=
                  match s.titleHref with
                  | some _ => { s with titleHref := some u }
                  | none => s
                let s :=
                  match s.mediaLink with
                  | some ml => { s with mediaLink := some { ml with href := u } }
                  | none => s
                { s with dsProductUrl := some u }
            | none => s
          let s :=
            match s.sectionAnchor with
            | some a =>
              if s.anchorElement ≠ some a then resetIntersectionObserver a anchorBottom s
              else s
            | none => s
          let s := updateVariantTitle (vr.title.getD "") s
          updateMedia vr s

/-! ## MKHeaderComponent (src/assets/mk-header.js)

Mobile-menu state reached after the guards of `#initMobileMenu` (header
component, menu button, drawer details and `header-drawer` all present).
`openIconDisplay` and `closeIconDisplay` are the inline `display` styles
of the two trigger icons, `none` meaning the icon node is absent. -/

structure HeaderState where
  detailsOpen : Bool
  ariaExpanded : Option String
  openIconDisplay : Option String
  closeIconDisplay : Option String
deriving DecidableEq, Repr

/-- Embedding of the `updateButtonState` closure of
`MKHeaderComponent.#initMobileMenu` (mk-header.js lines 40-56): syncs
`aria-expanded` with the `open` attribute of the details element and,
when both icons exist, swaps their `display` styles. -/
def updateButtonState (s : HeaderState) : HeaderState :=
  let s := { s with ariaExpanded := some (if s.detailsOpen then "true" else "false") }
  match s.openIconDisplay, s.closeIconDisplay with
  | some _, some _ =>
    if s.detailsOpen then
      { s with openIconDisplay := some "none", closeIconDisplay := some "block" }
    else
      { s with openIconDisplay := some "block", closeIconDisplay := some "none" }
  | _, _ => s

/-- Embedding of the state effect of `#initMobileMenu` initialization
(mk-header.js lines 82-91): one `updateButtonState` call followed by the
unconditional icon initialization that shows the open icon and hides the
close icon. -/
def initMobileMenu (s : HeaderState) : HeaderState :=
  let s := updateButtonState s
  match s.openIconDisplay, s.closeIconDisplay with
  | some _, some _ =>
    { s with openIconDisplay := some "block", closeIconDisplay := some "none" }
  | _, _ => s

/-- The synchronization property of C9: `aria-expanded` mirrors the open
attribute, the open icon is hidden exactly when the drawer is open, and
the close icon is shown exactly when the drawer is open. -/
def headerSynced (s : HeaderState) : Prop :=
  s.ariaExpanded = some (if s.detailsOpen then "true" else "false") ∧
  s.openIconDisplay = some (if s.detailsOpen then "none" else "block") ∧
  s.closeIconDisplay = some (if s.detailsOpen then "block" else "none")

/-! ## ProductDescriptionBlock (src/assets/product-description-block.js) -/

/-- The content element of the description block: its measured scroll
height, its inline `max-height` style, and its scroll position. -/
structure DescContent where
  scrollHeight : ℚ
  maxHeight : String
  scrollTop : ℚ
deriving DecidableEq, Repr

/-- State of a `product-description-block` together with the computed
style facts `#calculateCollapsedHeight` reads: `lineHeightComputed` is the
parsed computed line-height (`none` when `parseFloat` yields no number,
e.g. for the keyword "normal"), `hasTextElement` whether a text element
was found inside the content. -/
structure DescState where
  content : Option DescContent
  hasToggle : Bool
  toggleHidden : Bool
  toggleAriaExpanded : Option String
  collapsedHeight : ℚ
  expanded : Bool
  dsExpanded : String
  dsHasOverflow : String
  hasTextElement : Bool
  lineHeightComputed : Option ℚ
  fontSize : ℚ
  lineClamp : Nat
deriving DecidableEq, Repr

/-- Embedding of `ProductDescriptionBlock.#calculateCollapsedHeight`
(product-description-block.js lines 85-105): line-height times the
configured line-clamp count, falling back to `fontSize * 1.2` when the
computed line-height is non-numeric or zero, clamped at zero. -/
def calculateCollapsedHeight (s : DescState) : ℚ :=
  match s.content with
  | none => 0
  | some _ =>
    if !s.hasTextElement then 0
    else
      let fallback := if s.fontSize = 0 then 0 else s.fontSize * (6 / 5)
      let lineHeight :=
        match s.lineHeightComputed with
        | none => fallback
        | some x => if x = 0 then fallback else x
      max 0 (lineHeight * (s.lineClamp : ℚ))

/-- Embedding of `ProductDescriptionBlock.#updateOverflowState`
(product-description-block.js lines 110-149). -/
def updateOverflowState (s : DescState) : DescState :=
  match s.content with
  | none => s
  | some c =>
    if !s.hasToggle then s
    else if s.collapsedHeight ≤ 0 then
      { s with
        toggleHidden := true, dsHasOverflow := "false", expanded := false,
        dsExpanded := "false", toggleAriaExpanded := some "false",
        content := some { c with maxHeight := "none" } }
    else
      let hasOverflow := decide (s.collapsedHeight + 1 < c.scrollHeight)
      let s1 := { s with dsHasOverflow := if hasOverflow then "true" else "false" }
      if !hasOverflow then
        { s1 with
          toggleHidden := true, expanded := false, dsExpanded := "false",
          toggleAriaExpanded := some "false",
          content := some { c with maxHeight := "none" } }
      else
        let wasHidden := s1.toggleHidden
        let s2 := { s1 with toggleHidden := false }
        if !s2.expanded || wasHidden then
          { s2 with
            expanded := false, dsExpanded := "false",
            toggleAriaExpanded := some "false",
            content := some { c with
              maxHeight := toString s2.collapsedHeight ++ "px", scrollTop := 0 } }
        else { s2 with toggleAriaExpanded := some "true" }

/-- Embedding of `ProductDescriptionBlock.#initialize`
(product-description-block.js lines 73-78): recompute the collapsed
height, then apply the overflow state, provided both refs resolve. -/
def descInitialize (s : DescState) : DescState :=
  match s.content, s.hasToggle with
  | some _, true =>
    updateOverflowState { s with collapsedHeight := calculateCollapsedHeight s }
  | _, _ => s

/-! ## MkVideoPlayer (src/unnamed/part_001)

The lazy-loading video player.  The single media child found by
`querySelector(".mk-video__element")` is either a native video element or
a YouTube iframe.  Browser-environment reads are parameters: `isMobile`
is the result of the `(max-width: 749px)` media query, `playOk` whether
the promise returned by `HTMLMediaElement.play()` resolves or rejects. -/

structure VideoElem where
  src : String
  currentSrc : String
  poster : String
  currentTime : ℚ
  paused : Bool
  muted : Bool
deriving DecidableEq, Repr

inductive MediaElem where
  | video (v : VideoElem)
  | iframe (src : String)
deriving DecidableEq, Repr

/-- State of an `mk-video-player` element: private fields (`#isLoaded`,
`#isPlaying`, `#observer`), class-list bits, the media child, the video
container child and the `data-*` configuration attributes.
`observerPresent` models `#observer !== null`; `observerArmed` that the
observer is currently observing (not yet disconnected by its own
callback). -/
structure PlayerState where
  media : Option MediaElem
  hasContainer : Bool
  containerDisplay : String
  isLoaded : Bool
  isPlaying : Bool
  clsLoaded : Bool
  clsPlaying : Bool
  clsStarted : Bool
  observerPresent : Bool
  observerArmed : Bool
  dataVideoType : Option String
  dataLazyLoad : Option String
  dataAutoplay : Option String
  dataAutoplayOriginal : Option String
  dataMuted : Option String
  dataVideoDesktop : Option String
  dataVideoMobile : Option String
  dataPosterDesktop : Option String
  dataPosterMobile : Option String
  dataYoutubeDesktop : Option String
  dataYoutubeMobile : Option String
deriving DecidableEq, Repr

/-- JavaScript truthiness of an optional string attribute. -/
def truthy : Option String → Bool
  | none => false
  | some s => !(decide (s = ""))

/-- The value of `attr || "mp4"` for a `data-video-type` attribute. -/
def videoTypeOfAttr : Option String → String
  | some t => if t = "" then "mp4" else t
  | none => "mp4"

/-- The value of `this.dataset.videoType || "mp4"`. -/
def videoTypeOf (s : PlayerState) : String :=
  videoTypeOfAttr s.dataVideoType

/-- State effect of `HTMLMediaElement.load()`: playback is aborted and the
resource selection restarts from the current `src`. -/
def videoLoad (v : VideoElem) : VideoElem :=
  { v with currentSrc := v.src, currentTime := 0, paused := true }

/-- The source selection `isMobile && mobile ? mobile : desktop` used by
the loaders (part_001 lines 124, 166): the mobile source wins only on
mobile viewports and when truthy. -/
def chooseSrc (isMobile : Bool) (mobile desktop : Option String) : String :=
  if isMobile && truthy mobile then mobile.getD "" else desktop.getD ""

/-- The poster selection `isMobile && posterMobile ? posterMobile :
posterDesktop` (part_001 line 125), kept optional. -/
def choosePoster (isMobile : Bool) (mobile desktop : Option String) : Option String :=
  if isMobile && truthy mobile then mobile else desktop

/-- Embedding of `MkVideoPlayer.#loadMP4` (part_001 lines 111-149). -/
def loadMP4 (isMobile : Bool) (s : PlayerState) : PlayerState :=
  if !(truthy s.dataVideoDesktop) then s
  else
    let videoSrc := chooseSrc isMobile s.dataVideoMobile s.dataVideoDesktop
    let posterSrc := choosePoster isMobile s.dataPosterMobile s.dataPosterDesktop
    match s.media with
    | some (MediaElem.video v) =>
      if videoSrc = "" then s
      else
        let currentSrc := if v.currentSrc = "" then v.src else v.currentSrc
        let v :=
          if currentSrc = "" ∨ currentSrc ≠ videoSrc then
            videoLoad { v with src := videoSrc }
          else v
        let v := if truthy posterSrc then { v with poster := posterSrc.getD "" } else v
        { s with media := some (MediaElem.video v) }
    | _ => s

/-- Embedding of `MkVideoPlayer.#loadYouTube` (part_001 lines 154-180). -/
def loadYouTube (isMobile : Bool) (s : PlayerState) : PlayerState :=
  if !(truthy s.dataYoutubeDesktop) then s
  else
    let youtubeSrc := chooseSrc isMobile s.dataYoutubeMobile s.dataYoutubeDesktop
    match s.media with
    | some (MediaElem.iframe isrc) =>
      if youtubeSrc = "" then s
      else if isrc = "" ∨ isrc ≠ youtubeSrc then
        { s with media := some (MediaElem.iframe youtubeSrc) }
      else s
    | _ => s

/-- Embedding of `MkVideoPlayer.#loadVideo` (part_001 lines 91-106):
branch on the media kind, then mark the element loaded. -/
def loadVideoFn (isMobile : Bool) (s : PlayerState) : PlayerState :=
  if s.isLoaded then s
  else
    let s :=
      if videoTypeOf s = "youtube" then loadYouTube isMobile s else loadMP4 isMobile s
    { s with isLoaded := true, clsLoaded := true }

/-- Embedding of `MkVideoPlayer.#setupIntersectionObserver` (part_001
lines 60-86): a fresh observer is created and starts observing. -/
def setupIntersectionObserver (s : PlayerState) : PlayerState :=
  { s with observerPresent := true, observerArmed := true }

/-- Embedding of `MkVideoPlayer.#playVideo` (part_001 lines 364-408).
For a native video the promise outcome `playOk` selects the `then`
branch (flags set, classes added) or the `catch` branch (warning logged,
the rejection swallowed, and the `data-autoplay` attribute removed when
it was "true"). -/
def playVideoFn (playOk : Bool) (s : PlayerState) : PlayerState :=
  if s.isPlaying then s
  else
    match s.media with
    | none => s
    | some el =>
      let s := if s.hasContainer then { s with containerDisplay := "" } else s
      match el with
      | MediaElem.iframe _ =>
        if videoTypeOf s = "youtube" then
          { s with isPlaying := true, clsPlaying := true, clsStarted := true }
        else s
      | MediaElem.video v =>
        if playOk then
          { s with
            isPlaying := true, clsPlaying := true, clsStarted := true,
            media := some (MediaElem.video { v with paused := false }) }
        else
          if s.dataAutoplay = some "true" then { s with dataAutoplay := none } else s

/-- Embedding of `MkVideoPlayer.pauseVideo` (part_001 lines 413-434). -/
def pauseVideoFn (s : PlayerState) : PlayerState :=
  if !s.isPlaying then s
  else
    match s.media with
    | none => s
    | some el =>
      let s :=
        match el with
        | MediaElem.iframe _ => s
        | MediaElem.video v =>
          { s with media := some (MediaElem.video { v with paused := true }) }
      { s with isPlaying := false, clsPlaying := false }

/-- Embedding of `MkVideoPlayer.connectedCallback` (part_001 lines 21-42).
The base-class call and the play-button listener registration carry no
state of this model. -/
def connectedCallbackFn (isMobile playOk : Bool) (s : PlayerState) : PlayerState :=
  let isLazyLoad := s.dataLazyLoad = some "true"
  let isAutoplay := s.dataAutoplay = some "true"
  let s1 := if s.dataLazyLoad = some "true" then setupIntersectionObserver s
    else loadVideoFn isMobile s
  if isAutoplay ∧ ¬ isLazyLoad then playVideoFn playOk s1 else s1

/-- Embedding of the lazy-load observer callback (part_001 lines 67-83)
for an intersecting entry: load, optionally autoplay, then disconnect the
observer (which stays non-null). -/
def observerFire (isMobile playOk : Bool) (s : PlayerState) : PlayerState :=
  if s.isLoaded then s
  else
    let s := loadVideoFn isMobile s
    let s := if s.dataAutoplay = some "true" then playVideoFn playOk s else s
    { s with observerArmed := false }

/-- The argument accepted by `MkVideoPlayer.reset` (part_001 line 543):
missing, the legacy boolean, or an options object whose two fields may
each be absent. -/
inductive ResetArg where
  | undef
  | bool (b : Bool)
  | obj (unload : Option Bool) (disableAutoplay : Option Bool)
deriving DecidableEq, Repr

/-- Option normalization at the top of `reset` (part_001 lines 544-556):
the pair `(unload, disableAutoplay)`. -/
def parseResetArg : ResetArg → Bool × Bool
  | ResetArg.undef => (false, false)
  | ResetArg.bool b => (b, false)
  | ResetArg.obj u d => (u.getD false, d.getD false)

/-- Embedding of `MkVideoPlayer.reset` (part_001 lines 543-629). -/
def resetFn (options : ResetArg) (s : PlayerState) : PlayerState :=
  let unload := (parseResetArg options).1
  let disableAutoplay := (parseResetArg options).2
  let videoType := videoTypeOf s
  let isLazyLoad := s.dataLazyLoad = some "true"
  let s := if s.isPlaying then pauseVideoFn s else s
  let s := { s with isPlaying := false, clsPlaying := false, clsStarted := false }
  let s :=
    if disableAutoplay then
      { s with
        dataAutoplayOriginal := some (s.dataAutoplay.getD ""),
        dataAutoplay := some "false" }
    else s
  let s :=
    match s.media with
    | some (MediaElem.iframe _) =>
      if videoType = "youtube" then
        if unload then
          let s := { s with
            media := some (MediaElem.iframe ""), isLoaded := false, clsLoaded := false }
          if isLazyLoad ∧ s.observerPresent = true then setupIntersectionObserver s else s
        else s
      else s
    | some (MediaElem.video v) =>
      let v := { v with paused := true, currentTime := 0 }
      if unload then
        let v := videoLoad { v with src := "" }
        let s := { s with
          media := some (MediaElem.video v), isLoaded := false, clsLoaded := false }
        if isLazyLoad ∧ s.observerPresent = true then setupIntersectionObserver s else s
      else { s with media := some (MediaElem.video v) }
    | none => s
  if isLazyLoad ∧ s.hasContainer = true then { s with containerDisplay := "none" } else s

/-- Embedding of `MkVideoPlayer.isPlaying` (part_001 lines 535-537). -/
def isPlayingFn (s : PlayerState) : Bool := s.isPlaying

/-- The `src` attribute of the current media child. -/
def mediaSrc : Option MediaElem → Option String
  | some (MediaElem.video v) => some v.src
  | some (MediaElem.iframe isrc) => some isrc
  | none => none

/-! ## Theorems -/

/-- C2.  The sticky add-to-cart bar observes a single target node, so each
callback delivers an entry for that target.  For every delivered entry and
every prior class state: ratio exactly 0 adds `is-visible`, ratio at least
0.75 removes it, and any ratio strictly between leaves the class bit
unchanged. -/
theorem C2_sticky_intersection_ratio (r : ℚ) (v : Bool) :
    handleIntersection [r] v =
      if r = 0 then true else if (3 : ℚ) / 4 ≤ r then false else v := by
  rfl

/-- C3.  When the target selector never matches, the attach loop stops after
the tenth animation-frame retry (the eleventh `_attachObserver` call): the
element has warned, carries `is-visible`, holds no observer, and that call
and every later one schedules no further animation-frame retry. -/
theorem C3_attach_retry_bounded :
    attachRun 11 =
      { retryCount := 10, visible := true, warned := true,
        scheduled := false, observed := false } ∧
    ∀ k : Nat, attachRun (11 + k) = attachRun 11 := by
  refine ⟨by decide, ?_⟩
  intro k
  induction k with
  | zero => rfl
  | succ n ih =>
      have h : 11 + (n + 1) = (11 + n) + 1 := by omega
      rw [h]
      show attachObserver false (attachRun (11 + n)) = attachRun 11
      rw [ih]
      decide

/-- Concrete element state used to witness C4: configured product id "1". -/
def atcMismatchState : AtcElemState :=
  { productId := "1", dsProductId := some "1", dsProductUrl := none,
    dsProductTitle := none, titleHref := none, mediaLink := none,
    variantTarget := none, sectionAnchor := none, anchorElement := none,
    observerActive := false, observerGen := 0,
    ariaHidden := some "true", dsVisible := some "false" }

/-- Concrete element state refuting the literal form of C5: `aria-hidden`
already "false" while `data-visible` is still "false". -/
def c5MixedState : AtcElemState :=
  { productId := "1", dsProductId := some "1", dsProductUrl := none,
    dsProductTitle := none, titleHref := none, mediaLink := none,
    variantTarget := none, sectionAnchor := none, anchorElement := none,
    observerActive := true, observerGen := 1,
    ariaHidden := some "false", dsVisible := some "false" }

/-- Canonical hidden state used to witness the amended C5. -/
def c5HiddenState : AtcElemState :=
  { productId := "1", dsProductId := some "1", dsProductUrl := none,
    dsProductTitle := none, titleHref := none, mediaLink := none,
    variantTarget := none, sectionAnchor := none, anchorElement := none,
    observerActive := true, observerGen := 1,
    ariaHidden := some "true", dsVisible := some "false" }

/-- Entry whose anchor has scrolled above the viewport top. -/
def c5ShownEntry : IOEntry := { isIntersecting := false, bottom := -5 }

/-- C4.  A `variant:update` event whose extracted product id is absent or
differs from the element's configured product id causes no mutation at
all: the handler returns the state unchanged. -/
theorem C4_variant_update_mismatch_no_mutation (ev : Option VariantDetail) (b : ℚ)
    (s : AtcElemState) (h : ∀ p, extractPid ev = some p → p ≠ s.productId) :
    handleVariantUpdate ev b s = s := by
  cases ev with
  | none => rfl
  | some detail =>
    cases hd : detail.data with
    | none => simp [handleVariantUpdate, hd]
    | some data =>
      cases hp : (data.newProduct.bind NewProduct.id).orElse (fun _ => data.productId) with
      | none => simp [handleVariantUpdate, hd, hp]
      | some p =>
        have hne : p ≠ s.productId := h p (by simp [extractPid, hd, hp])
        simp [handleVariantUpdate, hd, hp, hne]

/-- Witness for C4 at a concrete mismatching event (incoming id "2",
configured id "1"). -/
theorem C4_variant_update_mismatch_witness :
    handleVariantUpdate
      (some { resource := none,
              data := some { newProduct := none, productId := some "2" } })
      0 atcMismatchState = atcMismatchState :=
  C4_variant_update_mismatch_no_mutation _ 0 atcMismatchState
    (by
      intro p hp
      simp [extractPid, Option.orElse] at hp
      subst hp
      decide)

/-- Counterexample to C5 as literally stated: from the inconsistent prior
state with `aria-hidden="false"` but `data-visible="false"`, an entry whose
anchor is not intersecting and whose bottom edge is at the viewport top
must, per the claim, leave `data-visible` equal to "true"; the handler
short-circuits in `setVisibility` and leaves it "false". -/
theorem C5_anchor_visibility_counterexample :
    c5ShownEntry.isIntersecting = false ∧ c5ShownEntry.bottom ≤ 0 ∧
    (handleAnchorIntersect [c5ShownEntry] c5MixedState).dsVisible = some "false" := by
  refine ⟨rfl, by norm_num [c5ShownEntry], ?_⟩
  rfl

/-- C5 amended.  Provided the element is in one of the two canonical
visibility states (`aria-hidden="false"` with `data-visible="true"`, or
`aria-hidden="true"` with `data-visible="false"`), the anchor handler
shows the element (both attributes in the shown configuration) exactly
when the entry is not intersecting and its bounding rectangle bottom is at
or above the viewport top, and hides it (both attributes in the hidden
configuration) otherwise. -/
theorem C5_anchor_visibility_canonical (s : AtcElemState) (e : IOEntry)
    (hc : (s.ariaHidden = some "false" ∧ s.dsVisible = some "true") ∨
          (s.ariaHidden = some "true" ∧ s.dsVisible = some "false")) :
    ((e.isIntersecting = false ∧ e.bottom ≤ 0) →
        (handleAnchorIntersect [e] s).ariaHidden = some "false" ∧
        (handleAnchorIntersect [e] s).dsVisible = some "true") ∧
    (¬(e.isIntersecting = false ∧ e.bottom ≤ 0) →
        (handleAnchorIntersect [e] s).ariaHidden = some "true" ∧
        (handleAnchorIntersect [e] s).dsVisible = some "false") := by
  constructor
  · rintro ⟨hi, hb⟩
    have hs : (!e.isIntersecting && decide (e.bottom ≤ 0)) = true := by
      simp [hi, hb]
    rcases hc with ⟨h1, h2⟩ | ⟨h1, h2⟩ <;>
      simp [handleAnchorIntersect, hs, setVisibility, h1, h2]
  · intro hn
    have hs : (!e.isIntersecting && decide (e.bottom ≤ 0)) = false := by
      cases h : e.isIntersecting with
      | true => simp
      | false =>
        have hb : ¬ e.bottom ≤ 0 := fun hb => hn ⟨h, hb⟩
        simp [hb]
    rcases hc with ⟨h1, h2⟩ | ⟨h1, h2⟩ <;>
      simp [handleAnchorIntersect, hs, setVisibility, h1, h2]

/-- Witness for the amended C5 at the canonical hidden state and an entry
whose anchor bottom has scrolled above the viewport. -/
theorem C5_anchor_visibility_witness :
    ((c5HiddenState.ariaHidden = some "false" ∧ c5HiddenState.dsVisible = some "true") ∨
     (c5HiddenState.ariaHidden = some "true" ∧ c5HiddenState.dsVisible = some "false")) ∧
    (((c5ShownEntry.isIntersecting = false ∧ c5ShownEntry.bottom ≤ 0) →
        (handleAnchorIntersect [c5ShownEntry] c5HiddenState).ariaHidden = some "false" ∧
        (handleAnchorIntersect [c5ShownEntry] c5HiddenState).dsVisible = some "true") ∧
     (¬(c5ShownEntry.isIntersecting = false ∧ c5ShownEntry.bottom ≤ 0) →
        (handleAnchorIntersect [c5ShownEntry] c5HiddenState).ariaHidden = some "true" ∧
        (handleAnchorIntersect [c5ShownEntry] c5HiddenState).dsVisible = some "false")) :=
  ⟨Or.inr ⟨rfl, rfl⟩,
   C5_anchor_visibility_canonical c5HiddenState c5ShownEntry (Or.inr ⟨rfl, rfl⟩)⟩

/-- Header state refuting the literal form of C9: the drawer details
element starts with the `open` attribute present. -/
def c9OpenState : HeaderState :=
  { detailsOpen := true, ariaExpanded := none,
    openIconDisplay := some "none", closeIconDisplay := some "block" }

/-- Header state witnessing the amended C9: drawer initially closed. -/
def c9ClosedState : HeaderState :=
  { detailsOpen := false, ariaExpanded := none,
    openIconDisplay := some "", closeIconDisplay := some "" }

/-- Counterexample to C9 as literally stated: when the drawer starts open,
initialization first syncs the icons via `updateButtonState` but then
unconditionally resets them to the closed configuration, so the open icon
ends up shown (`display: block`) although the claim requires it hidden
after initialization with the drawer open. -/
theorem C9_header_sync_counterexample :
    c9OpenState.detailsOpen = true ∧
    (initMobileMenu c9OpenState).detailsOpen = true ∧
    (initMobileMenu c9OpenState).openIconDisplay = some "block" ∧
    (initMobileMenu c9OpenState).closeIconDisplay = some "none" :=
  ⟨rfl, rfl, rfl, rfl⟩

/-- C9 amended.  Whenever both trigger icons exist, every run of the
toggle handler `updateButtonState` leaves `aria-expanded` equal to "true"
exactly when the details element has the `open` attribute and the icon
`display` styles set accordingly; the same holds for the initialization
path provided the drawer starts closed (initialization unconditionally
ends with the icons in the closed configuration). -/
theorem C9_header_toggle_sync (s : HeaderState)
    (ho : s.openIconDisplay.isSome = true) (hc : s.closeIconDisplay.isSome = true) :
    headerSynced (updateButtonState s) ∧
    (s.detailsOpen = false → headerSynced (initMobileMenu s)) := by
  rcases hoo : s.openIconDisplay with _ | o
  · rw [hoo] at ho
    simp at ho
  rcases hcc : s.closeIconDisplay with _ | c
  · rw [hcc] at hc
    simp at hc
  constructor
  · by_cases hd : s.detailsOpen <;>
      simp [updateButtonState, headerSynced, hoo, hcc, hd]
  · intro hd
    simp [initMobileMenu, updateButtonState, headerSynced, hoo, hcc, hd]

/-- Witness for the amended C9 at a concrete closed drawer with both
icons present. -/
theorem C9_header_toggle_sync_witness :
    c9ClosedState.openIconDisplay.isSome = true ∧
    c9ClosedState.closeIconDisplay.isSome = true ∧
    (headerSynced (updateButtonState c9ClosedState) ∧
      (c9ClosedState.detailsOpen = false → headerSynced (initMobileMenu c9ClosedState))) :=
  ⟨rfl, rfl, C9_header_toggle_sync c9ClosedState rfl rfl⟩

/-- Concrete description-block state witnessing C7: line-height 24px and
line clamp 4 give a collapsed height of 96, equal to the scroll height. -/
def c7Content : DescContent := { scrollHeight := 96, maxHeight := "", scrollTop := 0 }

/-- Element state going with `c7Content`. -/
def c7State : DescState :=
  { content := some c7Content, hasToggle := true, toggleHidden := false,
    toggleAriaExpanded := none, collapsedHeight := 0, expanded := false,
    dsExpanded := "false", dsHasOverflow := "false", hasTextElement := true,
    lineHeightComputed := some 24, fontSize := 16, lineClamp := 4 }

/-- C7.  When the content scroll height equals the computed collapsed
height, the overflow check run by initialization classifies the content as
not overflowing: the toggle stays hidden, `data-has-overflow` is "false",
the expanded flag is false and the content max-height is "none". -/
theorem C7_no_overflow_at_collapsed_height (s : DescState) (c : DescContent)
    (hcont : s.content = some c) (htog : s.hasToggle = true)
    (hsh : c.scrollHeight = calculateCollapsedHeight s) :
    (descInitialize s).toggleHidden = true ∧
    (descInitialize s).dsHasOverflow = "false" ∧
    (descInitialize s).expanded = false ∧
    (descInitialize s).content = some { c with maxHeight := "none" } := by
  by_cases hH : calculateCollapsedHeight s ≤ 0
  · simp [descInitialize, updateOverflowState, hcont, htog, hH]
  · have hno : ¬ (calculateCollapsedHeight s + 1 < c.scrollHeight) := by
      rw [hsh]
      linarith
    simp [descInitialize, updateOverflowState, hcont, htog, hH, hno]

/-- The collapsed height computed at `c7State`: 24 times 4 clamped lines. -/
theorem c7State_collapsedHeight : calculateCollapsedHeight c7State = 96 := by
  show max 0 ((24 : ℚ) * ((4 : Nat) : ℚ)) = 96
  rw [max_eq_right (by norm_num)]
  norm_num

/-- Witness for C7 at a concrete state whose scroll height matches the
computed collapsed height exactly. -/
theorem C7_no_overflow_witness :
    c7State.content = some c7Content ∧ c7State.hasToggle = true ∧
    c7Content.scrollHeight = calculateCollapsedHeight c7State ∧
    ((descInitialize c7State).toggleHidden = true ∧
      (descInitialize c7State).dsHasOverflow = "false" ∧
      (descInitialize c7State).expanded = false ∧
      (descInitialize c7State).content = some { c7Content with maxHeight := "none" }) :=
  ⟨rfl, rfl, by rw [c7State_collapsedHeight]; rfl,
    C7_no_overflow_at_collapsed_height c7State c7Content rfl rfl
      (by rw [c7State_collapsedHeight]; rfl)⟩

/-- Helper: `#playVideo` never changes the media `src`, the loaded flag,
the `is-loaded` class, or whether an observer exists. -/
theorem playVideoFn_preserves (playOk : Bool) (s : PlayerState) :
    mediaSrc (playVideoFn playOk s).media = mediaSrc s.media ∧
    (playVideoFn playOk s).isLoaded = s.isLoaded ∧
    (playVideoFn playOk s).clsLoaded = s.clsLoaded ∧
    (playVideoFn playOk s).observerPresent = s.observerPresent ∧
    (playVideoFn playOk s).observerArmed = s.observerArmed := by
  unfold playVideoFn
  by_cases hp : s.isPlaying = true
  · simp [hp]
  · rcases hm : s.media with _ | (v | isrc)
    · simp [hp, hm, mediaSrc]
    · by_cases hc : s.hasContainer = true <;>
        by_cases hk : playOk = true <;>
        by_cases ha : s.dataAutoplay = some "true" <;>
        simp [hp, hm, hc, hk, ha, mediaSrc]
    · by_cases hc : s.hasContainer = true <;>
        by_cases ht : videoTypeOfAttr s.dataVideoType = "youtube" <;>
        simp [hp, hm, hc, ht, mediaSrc, videoTypeOf]

/-- Helper: connecting an element whose `data-lazy-load` attribute is
"true" installs and arms the lazy-load observer. -/
theorem connect_lazy_installs_observer (isMobile playOk : Bool) (s : PlayerState)
    (h : s.dataLazyLoad = some "true") :
    (connectedCallbackFn isMobile playOk s).observerPresent = true ∧
    (connectedCallbackFn isMobile playOk s).observerArmed = true := by
  simp [connectedCallbackFn, h, setupIntersectionObserver]

/-- C10.  The legacy boolean form of `reset` agrees with the options
object form on every player state: `reset(true)` equals
`reset({unload: true})`, and `reset(false)`, `reset()` and `reset({})`
all equal `reset({unload: false, disableAutoplay: false})`, because the
argument is normalized to the same `(unload, disableAutoplay)` pair
before the shared body runs. -/
theorem C10_reset_legacy_api_equivalence (s : PlayerState) :
    resetFn (ResetArg.bool true) s = resetFn (ResetArg.obj (some true) none) s ∧
    resetFn (ResetArg.bool false) s = resetFn (ResetArg.obj (some false) (some false)) s ∧
    resetFn ResetArg.undef s = resetFn (ResetArg.obj (some false) (some false)) s ∧
    resetFn (ResetArg.obj none none) s = resetFn (ResetArg.obj (some false) (some false)) s :=
  ⟨rfl, rfl, rfl, rfl⟩

/-- C8.  When playback of a native video is rejected (the `play()` promise
rejects), the handler state function still returns — the rejection is
swallowed by the `catch` — the playing flag stays false, the `is-playing`
class bit is unchanged, and the `data-autoplay` attribute is removed
exactly when it was "true" at that moment. -/
theorem C8_play_rejection_handled (s : PlayerState) (v : VideoElem)
    (hmedia : s.media = some (MediaElem.video v))
    (hnp : s.isPlaying = false) :
    (playVideoFn false s).isPlaying = false ∧
    (playVideoFn false s).clsPlaying = s.clsPlaying ∧
    (playVideoFn false s).dataAutoplay =
      (if s.dataAutoplay = some "true" then none else s.dataAutoplay) := by
  unfold playVideoFn
  by_cases hc : s.hasContainer = true <;>
    by_cases ha : s.dataAutoplay = some "true" <;>
    simp [hmedia, hnp, hc, ha]

/-- Concrete player used to witness C8: a paused native MP4 video with
autoplay requested. -/
def c8Video : VideoElem :=
  { src := "movie.mp4", currentSrc := "movie.mp4", poster := "",
    currentTime := 0, paused := true, muted := false }

/-- Element state going with `c8Video`. -/
def c8State : PlayerState :=
  { media := some (MediaElem.video c8Video), hasContainer := true, containerDisplay := "",
    isLoaded := true, isPlaying := false, clsLoaded := true, clsPlaying := false,
    clsStarted := false, observerPresent := false, observerArmed := false,
    dataVideoType := some "mp4", dataLazyLoad := none, dataAutoplay := some "true",
    dataAutoplayOriginal := none, dataMuted := none,
    dataVideoDesktop := some "movie.mp4", dataVideoMobile := none,
    dataPosterDesktop := none, dataPosterMobile := none,
    dataYoutubeDesktop := none, dataYoutubeMobile := none }

/-- Witness for C8 at a concrete autoplay-requested player whose play
promise rejects. -/
theorem C8_play_rejection_witness :
    c8State.media = some (MediaElem.video c8Video) ∧ c8State.isPlaying = false ∧
    ((playVideoFn false c8State).isPlaying = false ∧
      (playVideoFn false c8State).clsPlaying = c8State.clsPlaying ∧
      (playVideoFn false c8State).dataAutoplay =
        (if c8State.dataAutoplay = some "true" then none else c8State.dataAutoplay)) :=
  ⟨rfl, rfl, C8_play_rejection_handled c8State c8Video rfl rfl⟩

/-- Helper: a truthy attribute read with default "" is non-empty. -/
theorem truthy_getD_ne (a : Option String) (h : truthy a = true) : a.getD "" ≠ "" := by
  rcases a with _ | x
  · simp [truthy] at h
  · simp only [truthy, Bool.not_eq_eq_eq_not, Bool.not_true, decide_eq_false_iff_not] at h
    simpa using h

/-- Helper: the selected source is non-empty whenever the desktop source
is truthy. -/
theorem chooseSrc_ne (isMobile : Bool) (mobile desktop : Option String)
    (hd : truthy desktop = true) : chooseSrc isMobile mobile desktop ≠ "" := by
  unfold chooseSrc
  by_cases hmb : (isMobile && truthy mobile) = true
  · rw [if_pos hmb]
    exact truthy_getD_ne _ (Bool.and_elim_right hmb)
  · rw [if_neg hmb]
    exact truthy_getD_ne _ hd

/-- Helper: `#loadVideo` on a not-yet-loaded element with a configured
desktop source and a fresh media child of the matching kind installs a
non-empty source, marks the element loaded, and leaves the observer
field untouched. -/
theorem loadVideo_eager (isMobile : Bool) (s : PlayerState)
    (hnl : s.isLoaded = false)
    (hcase :
      (videoTypeOf s = "youtube" ∧ (∃ isrc, s.media = some (MediaElem.iframe isrc)) ∧
        truthy s.dataYoutubeDesktop = true) ∨
      (videoTypeOf s ≠ "youtube" ∧
        (∃ v, s.media = some (MediaElem.video v) ∧ v.src = "" ∧ v.currentSrc = "") ∧
        truthy s.dataVideoDesktop = true)) :
    (∃ src, src ≠ "" ∧ mediaSrc (loadVideoFn isMobile s).media = some src) ∧
    (loadVideoFn isMobile s).isLoaded = true ∧
    (loadVideoFn isMobile s).clsLoaded = true ∧
    (loadVideoFn isMobile s).observerPresent = s.observerPresent ∧
    (loadVideoFn isMobile s).observerArmed = s.observerArmed := by
  rcases hcase with ⟨ht, ⟨isrc, hm⟩, hd⟩ | ⟨ht, ⟨v, hm, hsrc, hcur⟩, hd⟩
  · have hyt := chooseSrc_ne isMobile s.dataYoutubeMobile s.dataYoutubeDesktop hd
    by_cases hch : isrc = "" ∨ isrc ≠ chooseSrc isMobile s.dataYoutubeMobile s.dataYoutubeDesktop
    · refine ⟨⟨_, hyt, ?_⟩, ?_, ?_, ?_, ?_⟩ <;>
        simp [loadVideoFn, loadYouTube, hnl, ht, hd, hm, hyt, hch, mediaSrc]
    · push_neg at hch
      refine ⟨⟨isrc, hch.1, ?_⟩, ?_, ?_, ?_, ?_⟩ <;>
        simp [loadVideoFn, loadYouTube, hnl, ht, hd, hm, hyt, mediaSrc, hch.1, hch.2]
  · have hvs := chooseSrc_ne isMobile s.dataVideoMobile s.dataVideoDesktop hd
    refine ⟨⟨_, hvs, ?_⟩, ?_, ?_, ?_, ?_⟩ <;>
      by_cases hpo :
        truthy (choosePoster isMobile s.dataPosterMobile s.dataPosterDesktop) = true <;>
      simp [loadVideoFn, loadMP4, videoLoad, hnl, ht, hd, hm, hsrc, hcur, hvs, hpo, mediaSrc]

/-- C6.  Connecting a player whose `data-lazy-load` attribute is not
"true", which is not yet loaded, and which has a desktop media source and
a fresh media child of the matching kind, loads the media immediately
during `connectedCallback`: the media child ends with a non-empty source,
the element is marked loaded and gains `is-loaded`, and no intersection
observer is ever installed (so no observer callback was involved). -/
theorem C6_eager_load_on_connect (isMobile playOk : Bool) (s : PlayerState)
    (hlazy : s.dataLazyLoad ≠ some "true")
    (hnl : s.isLoaded = false)
    (hobs : s.observerPresent = false)
    (hcase :
      (videoTypeOf s = "youtube" ∧ (∃ isrc, s.media = some (MediaElem.iframe isrc)) ∧
        truthy s.dataYoutubeDesktop = true) ∨
      (videoTypeOf s ≠ "youtube" ∧
        (∃ v, s.media = some (MediaElem.video v) ∧ v.src = "" ∧ v.currentSrc = "") ∧
        truthy s.dataVideoDesktop = true)) :
    (∃ src, src ≠ "" ∧ mediaSrc (connectedCallbackFn isMobile playOk s).media = some src) ∧
    (connectedCallbackFn isMobile playOk s).isLoaded = true ∧
    (connectedCallbackFn isMobile playOk s).clsLoaded = true ∧
    (connectedCallbackFn isMobile playOk s).observerPresent = false := by
  obtain ⟨⟨src, hsrc, hms⟩, hld, hcls, hop, _⟩ := loadVideo_eager isMobile s hnl hcase
  have hconn : connectedCallbackFn isMobile playOk s =
      if s.dataAutoplay = some "true" then playVideoFn playOk (loadVideoFn isMobile s)
      else loadVideoFn isMobile s := by
    simp [connectedCallbackFn, hlazy]
  by_cases ha : s.dataAutoplay = some "true"
  · obtain ⟨pm, pl, pc, po, _⟩ := playVideoFn_preserves playOk (loadVideoFn isMobile s)
    rw [hconn, if_pos ha]
    exact ⟨⟨src, hsrc, by rw [pm, hms]⟩, by rw [pl, hld], by rw [pc, hcls],
      by rw [po, hop, hobs]⟩
  · rw [hconn, if_neg ha]
    exact ⟨⟨src, hsrc, hms⟩, hld, hcls, by rw [hop, hobs]⟩

/-- Fresh, empty native video child used to witness C6. -/
def c6Video : VideoElem :=
  { src := "", currentSrc := "", poster := "", currentTime := 0, paused := true,
    muted := false }

/-- Player state witnessing C6: lazy-load disabled, desktop MP4 source
configured, not yet loaded. -/
def c6State : PlayerState :=
  { media := some (MediaElem.video c6Video), hasContainer := true, containerDisplay := "",
    isLoaded := false, isPlaying := false, clsLoaded := false, clsPlaying := false,
    clsStarted := false, observerPresent := false, observerArmed := false,
    dataVideoType := some "mp4", dataLazyLoad := some "false", dataAutoplay := none,
    dataAutoplayOriginal := none, dataMuted := none,
    dataVideoDesktop := some "clip.mp4", dataVideoMobile := none,
    dataPosterDesktop := none, dataPosterMobile := none,
    dataYoutubeDesktop := none, dataYoutubeMobile := none }

/-- Witness for C6 at a concrete eager-loading MP4 player. -/
theorem C6_eager_load_witness :
    c6State.dataLazyLoad ≠ some "true" ∧ c6State.isLoaded = false ∧
    c6State.observerPresent = false ∧
    ((∃ src, src ≠ "" ∧ mediaSrc (connectedCallbackFn false false c6State).media = some src) ∧
      (connectedCallbackFn false false c6State).isLoaded = true ∧
      (connectedCallbackFn false false c6State).clsLoaded = true ∧
      (connectedCallbackFn false false c6State).observerPresent = false) :=
  ⟨by decide, rfl, rfl,
    C6_eager_load_on_connect false false c6State (by decide) rfl rfl
      (Or.inr ⟨by decide, ⟨c6Video, rfl, rfl, rfl⟩, by decide⟩)⟩

/-- C1.  On a loaded MP4 player with a native video child,
`reset({unload: true})` leaves `isPlaying()` false, clears the video
`src` attribute, clears the internal loaded flag, removes the `is-loaded`
class, and — when `data-lazy-load` is "true" (in which case the connect
lifecycle guarantees `#observer` is non-null, the stated hypothesis) —
installs a fresh, armed `IntersectionObserver` re-arming the lazy load. -/
theorem C1_reset_unload_mp4 (s : PlayerState) (v : VideoElem)
    (hmedia : s.media = some (MediaElem.video v))
    (htype : videoTypeOf s = "mp4")
    (hloaded : s.isLoaded = true)
    (hobs : s.dataLazyLoad = some "true" → s.observerPresent = true) :
    isPlayingFn (resetFn (ResetArg.obj (some true) none) s) = false ∧
    mediaSrc (resetFn (ResetArg.obj (some true) none) s).media = some "" ∧
    (resetFn (ResetArg.obj (some true) none) s).isLoaded = false ∧
    (resetFn (ResetArg.obj (some true) none) s).clsLoaded = false ∧
    (s.dataLazyLoad = some "true" →
      (resetFn (ResetArg.obj (some true) none) s).observerPresent = true ∧
      (resetFn (ResetArg.obj (some true) none) s).observerArmed = true) := by
  by_cases hl : s.dataLazyLoad = some "true"
  · have hop : s.observerPresent = true := hobs hl
    by_cases hp : s.isPlaying = true <;> by_cases hcont : s.hasContainer = true <;>
      simp [resetFn, parseResetArg, pauseVideoFn, videoLoad, setupIntersectionObserver,
        isPlayingFn, mediaSrc, hmedia, hp, hl, hcont, hop]
  · by_cases hp : s.isPlaying = true <;> by_cases hcont : s.hasContainer = true <;>
      simp [resetFn, parseResetArg, pauseVideoFn, videoLoad, setupIntersectionObserver,
        isPlayingFn, mediaSrc, hmedia, hp, hl, hcont]

/-- Loaded, playing native video child used to witness C1. -/
def c1Video : VideoElem :=
  { src := "clip.mp4", currentSrc := "clip.mp4", poster := "", currentTime := 7,
    paused := false, muted := false }

/-- Lazy-loading MP4 player state witnessing C1. -/
def c1State : PlayerState :=
  { media := some (MediaElem.video c1Video), hasContainer := true, containerDisplay := "",
    isLoaded := true, isPlaying := true, clsLoaded := true, clsPlaying := true,
    clsStarted := true, observerPresent := true, observerArmed := false,
    dataVideoType := some "mp4", dataLazyLoad := some "true", dataAutoplay := none,
    dataAutoplayOriginal := none, dataMuted := none,
    dataVideoDesktop := some "clip.mp4", dataVideoMobile := none,
    dataPosterDesktop := none, dataPosterMobile := none,
    dataYoutubeDesktop := none, dataYoutubeMobile := none }

/-- Witness for C1 at a concrete loaded, playing, lazy-loading MP4
player. -/
theorem C1_reset_unload_mp4_witness :
    c1State.media = some (MediaElem.video c1Video) ∧
    videoTypeOf c1State = "mp4" ∧ c1State.isLoaded = true ∧
    (isPlayingFn (resetFn (ResetArg.obj (some true) none) c1State) = false ∧
      mediaSrc (resetFn (ResetArg.obj (some true) none) c1State).media = some "" ∧
      (resetFn (ResetArg.obj (some true) none) c1State).isLoaded = false ∧
      (resetFn (ResetArg.obj (some true) none) c1State).clsLoaded = false ∧
      (c1State.dataLazyLoad = some "true" →
        (resetFn (ResetArg.obj (some true) none) c1State).observerPresent = true ∧
        (resetFn (ResetArg.obj (some true) none) c1State).observerArmed = true)) :=
  ⟨rfl, rfl, rfl,
    C1_reset_unload_mp4 c1State c1Video rfl rfl rfl (fun _ => rfl)⟩

end Spec2Proof
